import Mathlib

/-!
# Verification of `lightningd/plugin_control.c`

A shallow embedding of the dynamic plugin lifecycle control surface
(`src/lightningd/plugin_control.c`) together with theorems settling the
specified properties of its five subcommands (`start`, `stop`, `startdir`,
`rescan`, `list`) and of the asynchronous completion coordination.

Conventions of the embedding:
* JSON replies built through the `json_stream` API are modelled as ordered
  key/value lists (`JStream`).
* Calls into external collaborators (`plugin_kill`, `plugin_send_getmanifest`)
  are recorded as events in a `ControlOutcome` next to the returned
  `CommandResult`, so invariants such as "kill is only invoked on dynamic
  records" are statable.
* Collaborators that live outside this file's slice of the code base
  (`plugin_register`, `plugin_paths_match`, `add_plugin_dir`,
  `plugin_register_all_complete`, the coordinator bookkeeping) are modelled
  from the specification; each such definition says so in its doc comment.
-/

/-- Lifecycle state of a plugin record.  Modelled from the spec:
`lifecycleState ∈ {Starting, Active, Killed}` (§3); the source names the
Active state `INIT_COMPLETE` (the enum lives in `plugin.h`, outside this
slice).  `STARTING` covers every not-yet-handshaken state. -/
inductive PluginState where
  | STARTING
  | INIT_COMPLETE
  | KILLED
deriving DecidableEq, Repr

/-- One registry record, `struct plugin`: `cmd` is the path/token the plugin
was launched with, `plugin_state` its lifecycle state, `dynamic` whether it
may be managed at runtime. -/
structure Plugin where
  cmd : String
  plugin_state : PluginState
  dynamic : Bool
deriving DecidableEq, Repr

/-- The registry, `struct plugins`: an insertion-ordered list of records. -/
structure Plugins where
  plugins : List Plugin
deriving DecidableEq, Repr

/-- A JSON leaf value added by `json_add_string` / `json_add_bool`. -/
inductive JLeaf where
  | s (v : String)
  | b (v : Bool)
deriving DecidableEq, Repr

/-- A JSON object whose members are leaves, e.g. one `{name, active}` entry. -/
abbrev JObj := List (String × JLeaf)

/-- A top-level member of a reply: a leaf or an array of objects. -/
inductive JTop where
  | leaf (v : JLeaf)
  | arr (elems : List JObj)
deriving DecidableEq, Repr

/-- A reply under construction, `struct json_stream`: ordered members. -/
abbrev JStream := List (String × JTop)

/-- JSON-RPC error codes used by this file: `JSONRPC2_INVALID_PARAMS` and
`PLUGIN_ERROR` (numeric values live outside this slice). -/
inductive ErrorCode where
  | JSONRPC2_INVALID_PARAMS
  | PLUGIN_ERROR
deriving DecidableEq, Repr

/-- `struct command_result`: the terminal (or pending) outcome handed back to
the JSON-RPC transport for one control request. -/
inductive CommandResult where
  | command_success (response : JStream)
  | command_fail (code : ErrorCode) (msg : String)
  | command_still_pending
  | command_param_failed
deriving DecidableEq, Repr

/-- The serialization of one registry record inside the `"plugins"` array:
`{"name": p->cmd, "active": p->plugin_state == INIT_COMPLETE}`. -/
def plugin_json_entry (p : Plugin) : JObj :=
  [("name", JLeaf.s p.cmd),
   ("active", JLeaf.b (p.plugin_state == PluginState.INIT_COMPLETE))]

/-- `plugin_dynamic_list_plugins`: serializes, in registry order, each known
plugin as `{name, active}` and returns success. -/
def plugin_dynamic_list_plugins (plugins : Plugins) : CommandResult :=
  CommandResult.command_success
    [("plugins", JTop.arr (plugins.plugins.map plugin_json_entry))]

/-- `plugin_cmd_killed`: completion callback for a cohort member whose
handshake was aborted; fails the request with `PLUGIN_ERROR`. -/
def plugin_cmd_killed (plugin : Plugin) (msg : String) : CommandResult :=
  CommandResult.command_fail ErrorCode.PLUGIN_ERROR (plugin.cmd ++ ": " ++ msg)

/-- `plugin_cmd_succeeded`: completion callback for the last cohort member
succeeding; replies with the registry snapshot (`plugin->plugins` is the
record's back-pointer to the global registry). -/
def plugin_cmd_succeeded (plugin_plugins : Plugins) : CommandResult :=
  plugin_dynamic_list_plugins plugin_plugins

/-- `plugin_cmd_all_complete`: completion callback when a whole cohort is
accounted for; replies with the registry snapshot. -/
def plugin_cmd_all_complete (plugins : Plugins) : CommandResult :=
  plugin_dynamic_list_plugins plugins

/-- Characters of the component after the last `/`: `cur` holds the current
component reversed. -/
def path_basename_core (cur : List Char) : List Char → List Char
  | [] => cur.reverse
  | c :: cs =>
      if c = '/' then path_basename_core [] cs
      else path_basename_core (c :: cur) cs

/-- The basename of a path: the component after the last `/`. -/
def path_basename (s : String) : String :=
  ⟨path_basename_core [] s.data⟩

/-- Modelled from the spec: the Matcher, `findPlugin` (§4.1) /
`plugin_paths_match` (defined in `plugin.c`, outside this slice): "Matches by
exact path equality or by basename equality against the registry's stored
path." -/
def plugin_paths_match (cmd name : String) : Bool :=
  cmd == name || path_basename cmd == name

/-- Modelled from the spec: `registerAttempt(path) -> PluginRecord |
AlreadyRegistered` (§6); `plugin_register` (in `plugin.c`, outside this
slice) refuses a path that is already registered, otherwise appends a fresh
record in the `STARTING` state and returns it. -/
def plugin_register (plugins : Plugins) (path : String) :
    Option (Plugin × Plugins) :=
  if plugins.plugins.any (fun p => p.cmd == path) then
    none
  else
    let p : Plugin := ⟨path, PluginState.STARTING, true⟩
    some (p, ⟨plugins.plugins ++ [p]⟩)

/-- Modelled from the spec: `plugin_register_all_complete` (in `plugin.c`,
outside this slice) resolves the request immediately with the registry
snapshot when the cohort is empty — "If `k = 0`, resolves success immediately
with the current registry snapshot" (§4.2) — i.e. when no registered plugin
is still awaiting its handshake; otherwise it returns nothing and the request
stays pending. -/
def plugin_register_all_complete (plugins : Plugins) : Option CommandResult :=
  if plugins.plugins.any (fun p => p.plugin_state == PluginState.STARTING) then
    none
  else
    some (plugin_cmd_all_complete plugins)

/-- The outcome of one handler call: the `command_result` returned to the
transport, the registry afterwards, the records passed to `plugin_kill`, and
the paths for which a `getmanifest` handshake was submitted. -/
structure ControlOutcome where
  result : CommandResult
  plugins : Plugins
  kills : List Plugin
  getmanifests : List String
deriving DecidableEq, Repr

/-- Outcomes of the external collaborators a control request consults:
`deprecated_apis` (global flag from `options.h`), the result of
`plugin_send_getmanifest` submission per path, the `access(2)` checks made by
the dispatcher, `strerror(errno)`, `add_plugin_dir`, and
`plugins_add_default_dir`. -/
structure Env where
  deprecated_apis : Bool
  getmanifest_err : String → Option String
  access_X_OK : String → Bool
  access_F_OK : String → Bool
  strerror : String
  add_plugin_dir : Plugins → String → Except String Plugins
  plugins_add_default_dir : Plugins → Plugins

/-- `plugin_dynamic_start`: registers one plugin-startup attempt; fails
`JSONRPC2_INVALID_PARAMS` if already registered (no handshake submitted),
fails `PLUGIN_ERROR` if the `getmanifest` submission errors, otherwise
pending. -/
def plugin_dynamic_start (env : Env) (plugins : Plugins)
    (plugin_path : String) : ControlOutcome :=
  match plugin_register plugins plugin_path with
  | none =>
      ⟨CommandResult.command_fail ErrorCode.JSONRPC2_INVALID_PARAMS
        (plugin_path ++ ": already registered"), plugins, [], []⟩
  | some (_, plugins') =>
      match env.getmanifest_err plugin_path with
      | some err =>
          ⟨CommandResult.command_fail ErrorCode.PLUGIN_ERROR
            (plugin_path ++ ": " ++ err), plugins', [], [plugin_path]⟩
      | none =>
          ⟨CommandResult.command_still_pending, plugins', [], [plugin_path]⟩

/-- `plugin_dynamic_startdir`: registers all contained plugins recursively;
on `add_plugin_dir` error fails `JSONRPC2_INVALID_PARAMS`; when nothing is
left awaiting a handshake resolves immediately via
`plugin_register_all_complete`, otherwise submits the handshakes
(`plugins_send_getmanifest`) and stays pending. -/
def plugin_dynamic_startdir (env : Env) (plugins : Plugins)
    (dir_path : String) : ControlOutcome :=
  match env.add_plugin_dir plugins dir_path with
  | Except.error err =>
      ⟨CommandResult.command_fail ErrorCode.JSONRPC2_INVALID_PARAMS err,
        plugins, [], []⟩
  | Except.ok plugins' =>
      match plugin_register_all_complete plugins' with
      | some res => ⟨res, plugins', [], []⟩
      | none =>
          ⟨CommandResult.command_still_pending, plugins', [],
            ((plugins'.plugins.filter
                (fun p => p.plugin_state == PluginState.STARTING)).map
              Plugin.cmd)⟩

/-- The success reply of `plugin_dynamic_stop`: the stop message under
`"result"`, preceded by the same message under the empty-string key when
`deprecated_apis` is set. -/
def stop_response (deprecated_apis : Bool) (plugin_name : String) : JStream :=
  (if deprecated_apis then
    [("", JTop.leaf (JLeaf.s ("Successfully stopped " ++ plugin_name ++ ".")))]
   else []) ++
  [("result",
    JTop.leaf (JLeaf.s ("Successfully stopped " ++ plugin_name ++ ".")))]

/-- The body of `plugin_dynamic_stop`'s `list_for_each` loop: scan the
registry in order for the first record matching `plugin_name`; a non-dynamic
match fails, a dynamic match is killed and the success reply built; falling
off the end fails with "Could not find plugin". -/
def stop_scan (deprecated_apis : Bool) (plugin_name : String) :
    List Plugin → CommandResult × List Plugin
  | [] =>
      (CommandResult.command_fail ErrorCode.JSONRPC2_INVALID_PARAMS
        ("Could not find plugin " ++ plugin_name), [])
  | p :: ps =>
      if plugin_paths_match p.cmd plugin_name then
        if !p.dynamic then
          (CommandResult.command_fail ErrorCode.JSONRPC2_INVALID_PARAMS
            (plugin_name ++ " cannot be managed when lightningd is up"), [])
        else
          (CommandResult.command_success
            (stop_response deprecated_apis plugin_name), [p])
      else
        stop_scan deprecated_apis plugin_name ps

/-- `plugin_dynamic_stop`: synchronous; kills the first dynamic match and
succeeds, or fails with `JSONRPC2_INVALID_PARAMS`.  (`plugin_kill`'s own
effect on the registry belongs to the external Registry collaborator; the
kill event is recorded in `kills`.) -/
def plugin_dynamic_stop (env : Env) (plugins : Plugins)
    (plugin_name : String) : ControlOutcome :=
  let rk := stop_scan env.deprecated_apis plugin_name plugins.plugins
  ⟨rk.1, plugins, rk.2, []⟩

/-- `plugin_dynamic_rescan_plugins`: adds from the default directory (never
fails on "already registered"), then resolves immediately when no handshake
is pending, else stays pending. -/
def plugin_dynamic_rescan_plugins (env : Env) (plugins : Plugins) :
    ControlOutcome :=
  match plugin_register_all_complete (env.plugins_add_default_dir plugins) with
  | some res => ⟨res, env.plugins_add_default_dir plugins, [], []⟩
  | none =>
      ⟨CommandResult.command_still_pending,
        env.plugins_add_default_dir plugins, [], []⟩

/-- Whether `param_subcommand` accepts the token: it is compared (`streq`)
against the five names passed at the call site. -/
def param_subcommand_ok (subcmd : String) : Bool :=
  subcmd == "start" || subcmd == "stop" || subcmd == "startdir" ||
    subcmd == "rescan" || subcmd == "list"

/-- `json_plugin_control`: dispatch on the subcommand token.  The argument
`arg` models the single required string parameter of `stop`, `start` and
`startdir` (`none` when the caller omitted it, in which case `param` fails).
The final `abort()` — reached only when the token is none of the five — is
modelled as `none`. -/
def json_plugin_control (env : Env) (plugins : Plugins) (subcmd : String)
    (arg : Option String) : Option ControlOutcome :=
  if subcmd = "stop" then
    some (match arg with
      | none => ⟨CommandResult.command_param_failed, plugins, [], []⟩
      | some plugin_name => plugin_dynamic_stop env plugins plugin_name)
  else if subcmd = "start" then
    some (match arg with
      | none => ⟨CommandResult.command_param_failed, plugins, [], []⟩
      | some plugin_path =>
          if env.access_X_OK plugin_path then
            plugin_dynamic_start env plugins plugin_path
          else
            ⟨CommandResult.command_fail ErrorCode.JSONRPC2_INVALID_PARAMS
              (plugin_path ++ " is not executable: " ++ env.strerror),
              plugins, [], []⟩)
  else if subcmd = "startdir" then
    some (match arg with
      | none => ⟨CommandResult.command_param_failed, plugins, [], []⟩
      | some dir_path =>
          if env.access_F_OK dir_path then
            plugin_dynamic_startdir env plugins dir_path
          else
            ⟨CommandResult.command_fail ErrorCode.JSONRPC2_INVALID_PARAMS
              ("Could not open " ++ dir_path), plugins, [], []⟩)
  else if subcmd = "rescan" then
    some (plugin_dynamic_rescan_plugins env plugins)
  else if subcmd = "list" then
    some ⟨plugin_dynamic_list_plugins plugins, plugins, [], []⟩
  else
    none

/-- `s` mentions `phrase`: `phrase` occurs contiguously inside `s`. -/
def mentions (s phrase : String) : Prop :=
  ∃ a b, s.data = a ++ phrase.data ++ b

/-- Modelled from the spec: the Async Completion Coordinator state (§4.3).
The cohort bookkeeping and the per-request `resolved` flag live in
collaborators outside this slice; the replies a resolution emits are built by
this slice's callbacks (`plugin_cmd_succeeded`, `plugin_cmd_killed`,
`plugin_cmd_all_complete`).  `replies` records every reply actually emitted
to the transport for the owning request. -/
structure Coordinator where
  plugins : Plugins
  expectedCount : Nat
  completedCount : Nat
  failed : Bool
  resolved : Bool
  replies : List CommandResult
deriving DecidableEq, Repr

/-- A completion signal delivered by the external handshake layer for one
cohort member, named after the callback it triggers in this slice. -/
inductive Signal where
  | cmd_succeeded (p : Plugin)
  | cmd_killed (p : Plugin) (msg : String)
  | cmd_all_complete
deriving DecidableEq, Repr

/-- Modelled from the spec: the idempotency guard (§4.3) — check-and-set the
per-request `resolved` flag before emitting a reply; a second resolution
attempt is a no-op. -/
def resolveRequest (c : Coordinator) (r : CommandResult) : Coordinator :=
  if c.resolved then c
  else { c with resolved := true, replies := c.replies ++ [r] }

/-- Modelled from the spec: one step of the Coordinator (§4.3).  Signals for
an already-resolved request are discarded; `cmd_succeeded` increments
`completedCount` and resolves with the snapshot once the whole cohort is
accounted for; `cmd_killed` resolves with failure immediately and marks
`failed`; `cmd_all_complete` resolves with the snapshot. -/
def coordStep (c : Coordinator) (s : Signal) : Coordinator :=
  if c.resolved then c
  else
    match s with
    | Signal.cmd_succeeded _ =>
        let c' := { c with completedCount := c.completedCount + 1 }
        if c'.completedCount == c'.expectedCount then
          resolveRequest c' (plugin_cmd_succeeded c'.plugins)
        else c'
    | Signal.cmd_killed p msg =>
        resolveRequest { c with failed := true } (plugin_cmd_killed p msg)
    | Signal.cmd_all_complete =>
        resolveRequest c (plugin_cmd_all_complete c.plugins)

/-- The Coordinator state for a freshly opened cohort of `n` members. -/
def initCoordinator (plugins : Plugins) (n : Nat) : Coordinator :=
  ⟨plugins, n, 0, false, false, []⟩

/-- Run the Coordinator over a delivered sequence of completion signals. -/
def runCoordinator (plugins : Plugins) (n : Nat) (sigs : List Signal) :
    Coordinator :=
  sigs.foldl coordStep (initCoordinator plugins n)

/-- Concrete fixture: a dynamic, active plugin. -/
def foo_plugin : Plugin := ⟨"/plugins/foo", PluginState.INIT_COMPLETE, true⟩

/-- Concrete fixture: a non-dynamic (boot-time) plugin. -/
def static_plugin : Plugin :=
  ⟨"/plugins/static", PluginState.INIT_COMPLETE, false⟩

/-- Concrete fixture: a registry holding `foo_plugin` then `static_plugin`. -/
def sample_registry : Plugins := ⟨[foo_plugin, static_plugin]⟩

/-- Concrete fixture: collaborator outcomes with the deprecation flag unset,
every path executable and existing, `getmanifest` submissions succeeding and
directory scans adding nothing. -/
def sample_env : Env :=
  ⟨false, fun _ => none, fun _ => true, fun _ => true, "Permission denied",
   fun ps _ => Except.ok ps, fun ps => ps⟩

/-- Concrete fixture: `sample_env` with the deprecation flag set. -/
def sample_env_dep : Env := { sample_env with deprecated_apis := true }

/-- Concrete fixture: `sample_env` with every path non-executable. -/
def sample_env_noexec : Env := { sample_env with access_X_OK := fun _ => false }

lemma mentions_append_left (x s phrase : String) (h : mentions s phrase) :
    mentions (x ++ s) phrase := by
  obtain ⟨a, b, hab⟩ := h
  exact ⟨x.data ++ a, b, by simp [String.data_append, hab]⟩

lemma mentions_append_right (s y phrase : String) (h : mentions s phrase) :
    mentions (s ++ y) phrase := by
  obtain ⟨a, b, hab⟩ := h
  exact ⟨a, b ++ y.data, by simp [String.data_append, hab]⟩

lemma coordStep_replies (c : Coordinator) (s : Signal)
    (h : c.replies.length = (if c.resolved then 1 else 0)) :
    (coordStep c s).replies.length =
      (if (coordStep c s).resolved then 1 else 0) := by
  unfold coordStep resolveRequest
  by_cases hr : c.resolved
  · simp [hr, h]
  · cases s <;> simp [hr] at h ⊢
    · split <;> simp [hr, h]
    · simp [h]
    · simp [h]

lemma foldl_coordStep_replies (sigs : List Signal) (c : Coordinator)
    (h : c.replies.length = (if c.resolved then 1 else 0)) :
    (sigs.foldl coordStep c).replies.length =
      (if (sigs.foldl coordStep c).resolved then 1 else 0) := by
  induction sigs generalizing c with
  | nil => exact h
  | cons s sigs ih => exact ih (coordStep c s) (coordStep_replies c s h)

lemma coordStep_resolved_noop (c : Coordinator) (s : Signal)
    (h : c.resolved = true) : coordStep c s = c := by
  unfold coordStep
  simp [h]

/-- C1: for every cohort and every sequence of completion signals
(`plugin_cmd_succeeded`, `plugin_cmd_killed`, `plugin_cmd_all_complete`) a
terminal reply is emitted to the transport at most once, and any signal
arriving after the request has been resolved leaves the Coordinator
unchanged (a second resolution attempt is a no-op). -/
theorem claim_at_most_once_resolution (plugins : Plugins) (n : Nat)
    (sigs : List Signal) :
    (runCoordinator plugins n sigs).replies.length ≤ 1 ∧
    (∀ s : Signal, (runCoordinator plugins n sigs).resolved = true →
      runCoordinator plugins n (sigs ++ [s]) = runCoordinator plugins n sigs) := by
  have hinv := foldl_coordStep_replies sigs (initCoordinator plugins n) (by rfl)
  constructor
  · unfold runCoordinator
    rw [hinv]
    split <;> omega
  · intro s hres
    unfold runCoordinator at hres ⊢
    rw [List.foldl_append]
    simp [coordStep_resolved_noop _ s hres]

lemma stop_scan_found_dynamic (dep : Bool) (name : String) (ps : List Plugin)
    (p : Plugin)
    (hfind : ps.find? (fun q => plugin_paths_match q.cmd name) = some p)
    (hdyn : p.dynamic = true) :
    stop_scan dep name ps =
      (CommandResult.command_success (stop_response dep name), [p]) := by
  induction ps with
  | nil => simp at hfind
  | cons q ps ih =>
    by_cases hm : plugin_paths_match q.cmd name = true
    · simp [List.find?_cons, hm] at hfind
      subst hfind
      simp [stop_scan, hm, hdyn]
    · have hm' : plugin_paths_match q.cmd name = false := by simpa using hm
      simp [List.find?_cons, hm'] at hfind
      simpa [stop_scan, hm'] using ih hfind

lemma stop_scan_found_nondynamic (dep : Bool) (name : String)
    (ps : List Plugin) (p : Plugin)
    (hfind : ps.find? (fun q => plugin_paths_match q.cmd name) = some p)
    (hdyn : p.dynamic = false) :
    stop_scan dep name ps =
      (CommandResult.command_fail ErrorCode.JSONRPC2_INVALID_PARAMS
        (name ++ " cannot be managed when lightningd is up"), []) := by
  induction ps with
  | nil => simp at hfind
  | cons q ps ih =>
    by_cases hm : plugin_paths_match q.cmd name = true
    · simp [List.find?_cons, hm] at hfind
      subst hfind
      simp [stop_scan, hm, hdyn]
    · have hm' : plugin_paths_match q.cmd name = false := by simpa using hm
      simp [List.find?_cons, hm'] at hfind
      simpa [stop_scan, hm'] using ih hfind

lemma stop_scan_not_found (dep : Bool) (name : String) (ps : List Plugin)
    (hfind : ps.find? (fun q => plugin_paths_match q.cmd name) = none) :
    stop_scan dep name ps =
      (CommandResult.command_fail ErrorCode.JSONRPC2_INVALID_PARAMS
        ("Could not find plugin " ++ name), []) := by
  induction ps with
  | nil => rfl
  | cons q ps ih =>
    rcases hq : plugin_paths_match q.cmd name with _ | _
    · simp [List.find?_cons, hq] at hfind
      simpa [stop_scan, hq] using ih (List.find?_eq_none.mpr (by simpa using hfind))
    · simp [List.find?_cons, hq] at hfind

lemma stop_scan_success_inv (dep : Bool) (name : String) (ps : List Plugin)
    (r : JStream) (ks : List Plugin)
    (h : stop_scan dep name ps = (CommandResult.command_success r, ks)) :
    r = stop_response dep name := by
  induction ps with
  | nil => simp [stop_scan] at h
  | cons q ps ih =>
    by_cases hm : plugin_paths_match q.cmd name = true
    · rcases hq : q.dynamic with _ | _
      · simp [stop_scan, hm, hq] at h
      · simp [stop_scan, hm, hq] at h
        exact h.1.symm
    · have hm' : plugin_paths_match q.cmd name = false := by simpa using hm
      simp [stop_scan, hm'] at h
      exact ih h

lemma stop_scan_kills_dynamic (dep : Bool) (name : String) (ps : List Plugin)
    (p : Plugin) (hp : p ∈ (stop_scan dep name ps).2) : p.dynamic = true := by
  induction ps with
  | nil => simp [stop_scan] at hp
  | cons q ps ih =>
    by_cases hm : plugin_paths_match q.cmd name = true
    · rcases hq : q.dynamic with _ | _
      · simp [stop_scan, hm, hq] at hp
      · simp [stop_scan, hm, hq] at hp
        subst hp
        exact hq
    · have hm' : plugin_paths_match q.cmd name = false := by simpa using hm
      simp [stop_scan, hm'] at hp
      exact ih hp

/-- C2 counterexample: the claim says the stop success reply is "the current
registry snapshot"; on a registry holding a dynamic `foo` plugin, stopping
`foo` succeeds but replies with the stop message, which differs from the
snapshot serialization of the registry both before the kill and after the
record's removal. -/
theorem claim_stop_snapshot_counterexample :
    (plugin_dynamic_stop sample_env sample_registry "foo").result =
      CommandResult.command_success (stop_response false "foo") ∧
    (plugin_dynamic_stop sample_env sample_registry "foo").result ≠
      plugin_dynamic_list_plugins sample_registry ∧
    (plugin_dynamic_stop sample_env sample_registry "foo").result ≠
      plugin_dynamic_list_plugins ⟨[static_plugin]⟩ := by
  refine ⟨by decide, by decide, by decide⟩

/-- C2 (amended): for every stop request whose identifier's first registry
match is a record with `isDynamic = true`, the handler invokes kill on that
record and resolves success synchronously — with the stop message
(`"Successfully stopped <name>."`) as the reply, not the registry
snapshot. -/
theorem claim_stop_dynamic_kill_success (env : Env) (plugins : Plugins)
    (name : String) (p : Plugin)
    (hfind : plugins.plugins.find? (fun q => plugin_paths_match q.cmd name) =
      some p)
    (hdyn : p.dynamic = true) :
    (plugin_dynamic_stop env plugins name).kills = [p] ∧
    (plugin_dynamic_stop env plugins name).result =
      CommandResult.command_success (stop_response env.deprecated_apis name) := by
  have h := stop_scan_found_dynamic env.deprecated_apis name plugins.plugins p
    hfind hdyn
  unfold plugin_dynamic_stop
  simp [h]

/-- Witness for C2's amended theorem at a concrete registry. -/
theorem claim_stop_dynamic_kill_success_witness :
    (sample_registry.plugins.find?
        (fun q => plugin_paths_match q.cmd "foo") = some foo_plugin) ∧
    foo_plugin.dynamic = true ∧
    ((plugin_dynamic_stop sample_env sample_registry "foo").kills =
        [foo_plugin] ∧
     (plugin_dynamic_stop sample_env sample_registry "foo").result =
       CommandResult.command_success
         (stop_response sample_env.deprecated_apis "foo")) :=
  ⟨by decide, by decide,
   claim_stop_dynamic_kill_success sample_env sample_registry "foo" foo_plugin
     (by decide) (by decide)⟩

/-- C3: a stop whose identifier's first registry match is non-dynamic fails
with `JSONRPC2_INVALID_PARAMS` mentioning "cannot be managed"; a stop whose
identifier matches nothing fails with `JSONRPC2_INVALID_PARAMS` mentioning
"Could not find"; the two error messages are never the same string. -/
theorem claim_stop_error_distinction (env : Env) (plugins : Plugins)
    (name : String) :
    (∀ p : Plugin,
      plugins.plugins.find? (fun q => plugin_paths_match q.cmd name) = some p →
      p.dynamic = false →
      (plugin_dynamic_stop env plugins name).result =
        CommandResult.command_fail ErrorCode.JSONRPC2_INVALID_PARAMS
          (name ++ " cannot be managed when lightningd is up") ∧
      mentions (name ++ " cannot be managed when lightningd is up")
        "cannot be managed") ∧
    (plugins.plugins.find? (fun q => plugin_paths_match q.cmd name) = none →
      (plugin_dynamic_stop env plugins name).result =
        CommandResult.command_fail ErrorCode.JSONRPC2_INVALID_PARAMS
          ("Could not find plugin " ++ name) ∧
      mentions ("Could not find plugin " ++ name) "Could not find") ∧
    (name ++ " cannot be managed when lightningd is up") ≠
      ("Could not find plugin " ++ name) := by
  refine ⟨?_, ?_, ?_⟩
  · intro p hfind hdyn
    have h := stop_scan_found_nondynamic env.deprecated_apis name
      plugins.plugins p hfind hdyn
    constructor
    · unfold plugin_dynamic_stop
      simp [h]
    · exact mentions_append_left name _ _
        ⟨" ".data, " when lightningd is up".data, by decide⟩
  · intro hfind
    have h := stop_scan_not_found env.deprecated_apis name plugins.plugins
      hfind
    constructor
    · unfold plugin_dynamic_stop
      simp [h]
    · exact mentions_append_right _ name _ ⟨[], " plugin ".data, by decide⟩
  · intro h
    have h2 := congrArg String.length h
    rw [String.length_append, String.length_append] at h2
    have h3 : (" cannot be managed when lightningd is up").length = 40 := by
      decide
    have h4 : ("Could not find plugin ").length = 22 := by decide
    rw [h3, h4] at h2
    omega

/-- Witness for C3 at a concrete registry: a non-dynamic match and an
unknown name. -/
theorem claim_stop_error_distinction_witness :
    ((plugin_dynamic_stop sample_env sample_registry "static").result =
       CommandResult.command_fail ErrorCode.JSONRPC2_INVALID_PARAMS
         "static cannot be managed when lightningd is up" ∧
     mentions "static cannot be managed when lightningd is up"
       "cannot be managed") ∧
    ((plugin_dynamic_stop sample_env sample_registry "nope").result =
       CommandResult.command_fail ErrorCode.JSONRPC2_INVALID_PARAMS
         "Could not find plugin nope" ∧
     mentions "Could not find plugin nope" "Could not find") :=
  ⟨(claim_stop_error_distinction sample_env sample_registry "static").1
      static_plugin (by decide) (by decide),
   (claim_stop_error_distinction sample_env sample_registry "nope").2.1
      (by decide)⟩

/-- C4: a successful stop reply carries the stop message under `"result"`;
when the global deprecation flag is set it additionally carries the same
message under the empty-string key, and when the flag is unset the
empty-string key is absent. -/
theorem claim_stop_deprecated_shim (env : Env) (plugins : Plugins)
    (name : String) (r : JStream)
    (h : (plugin_dynamic_stop env plugins name).result =
      CommandResult.command_success r) :
    r.lookup "result" =
      some (JTop.leaf (JLeaf.s ("Successfully stopped " ++ name ++ "."))) ∧
    (env.deprecated_apis = true →
      r.lookup "" =
        some (JTop.leaf (JLeaf.s ("Successfully stopped " ++ name ++ ".")))) ∧
    (env.deprecated_apis = false → r.lookup "" = none) := by
  have hr : r = stop_response env.deprecated_apis name := by
    unfold plugin_dynamic_stop at h
    exact stop_scan_success_inv env.deprecated_apis name plugins.plugins r
      (stop_scan env.deprecated_apis name plugins.plugins).2
      (by rw [← h])
  subst hr
  rcases hd : env.deprecated_apis with _ | _
  · refine ⟨?_, by simp [hd], fun _ => ?_⟩
    · simp [stop_response, List.lookup]
    · simp [stop_response, List.lookup]
  · refine ⟨?_, fun _ => ?_, by simp [hd]⟩
    · simp [stop_response, List.lookup]
    · simp [stop_response, List.lookup]

/-- Witness for C4 at a concrete registry, with the deprecation flag set. -/
theorem claim_stop_deprecated_shim_witness :
    ((plugin_dynamic_stop sample_env_dep sample_registry "foo").result =
      CommandResult.command_success (stop_response true "foo")) ∧
    ((stop_response true "foo").lookup "result" =
      some (JTop.leaf (JLeaf.s ("Successfully stopped " ++ "foo" ++ "."))) ∧
     (sample_env_dep.deprecated_apis = true →
       (stop_response true "foo").lookup "" =
         some (JTop.leaf (JLeaf.s ("Successfully stopped " ++ "foo" ++ ".")))) ∧
     (sample_env_dep.deprecated_apis = false →
       (stop_response true "foo").lookup "" = none)) :=
  ⟨by decide,
   claim_stop_deprecated_shim sample_env_dep sample_registry "foo"
     (stop_response true "foo") (by decide)⟩

/-- Witness for C1 at a concrete cohort: one success resolves a cohort of
one, and a later kill signal is discarded. -/
theorem claim_at_most_once_resolution_witness :
    (runCoordinator sample_registry 1
        [Signal.cmd_succeeded foo_plugin]).replies.length ≤ 1 ∧
    runCoordinator sample_registry 1
        ([Signal.cmd_succeeded foo_plugin] ++
          [Signal.cmd_killed foo_plugin "died"]) =
      runCoordinator sample_registry 1 [Signal.cmd_succeeded foo_plugin] :=
  ⟨(claim_at_most_once_resolution sample_registry 1
      [Signal.cmd_succeeded foo_plugin]).1,
   (claim_at_most_once_resolution sample_registry 1
      [Signal.cmd_succeeded foo_plugin]).2
     (Signal.cmd_killed foo_plugin "died") (by decide)⟩

/-- C5: a start request whose path is already registered fails synchronously
with `JSONRPC2_INVALID_PARAMS` mentioning "already registered": no
`getmanifest` handshake is submitted, the registry is untouched, and the
request never becomes pending. -/
theorem claim_start_already_registered (env : Env) (plugins : Plugins)
    (path : String) (hexec : env.access_X_OK path = true)
    (hreg : ∃ q ∈ plugins.plugins, q.cmd = path) :
    ∃ out : ControlOutcome,
      json_plugin_control env plugins "start" (some path) = some out ∧
      out.result = CommandResult.command_fail ErrorCode.JSONRPC2_INVALID_PARAMS
        (path ++ ": already registered") ∧
      mentions (path ++ ": already registered") "already registered" ∧
      out.getmanifests = [] ∧
      out.plugins = plugins ∧
      out.result ≠ CommandResult.command_still_pending := by
  have hnone : plugin_register plugins path = none := by
    obtain ⟨q, hq, hcmd⟩ := hreg
    have : plugins.plugins.any (fun p => p.cmd == path) = true :=
      List.any_eq_true.mpr ⟨q, hq, by simp [hcmd]⟩
    simp [plugin_register, this]
  have hctl : json_plugin_control env plugins "start" (some path) =
      some (if env.access_X_OK path then plugin_dynamic_start env plugins path
        else ⟨CommandResult.command_fail ErrorCode.JSONRPC2_INVALID_PARAMS
          (path ++ " is not executable: " ++ env.strerror),
          plugins, [], []⟩) := rfl
  rw [hctl, hexec]
  refine ⟨plugin_dynamic_start env plugins path, by simp, ?_, ?_, ?_, ?_, ?_⟩
  · simp [plugin_dynamic_start, hnone]
  · exact mentions_append_left path _ _ ⟨": ".data, [], by decide⟩
  · simp [plugin_dynamic_start, hnone]
  · simp [plugin_dynamic_start, hnone]
  · simp [plugin_dynamic_start, hnone]

/-- Witness for C5: starting `/plugins/foo` when it is already in the
registry. -/
theorem claim_start_already_registered_witness :
    sample_env.access_X_OK "/plugins/foo" = true ∧
    (∃ out : ControlOutcome,
      json_plugin_control sample_env sample_registry "start"
          (some "/plugins/foo") = some out ∧
      out.result = CommandResult.command_fail ErrorCode.JSONRPC2_INVALID_PARAMS
        ("/plugins/foo" ++ ": already registered") ∧
      mentions ("/plugins/foo" ++ ": already registered")
        "already registered" ∧
      out.getmanifests = [] ∧
      out.plugins = sample_registry ∧
      out.result ≠ CommandResult.command_still_pending) :=
  ⟨by decide,
   claim_start_already_registered sample_env sample_registry "/plugins/foo"
     (by decide) ⟨foo_plugin, by decide, by decide⟩⟩

/-- C6: a start request whose path is not executable fails synchronously
with `JSONRPC2_INVALID_PARAMS`, and neither the registry nor any collaborator
is touched: no registration, no handshake, no kill. -/
theorem claim_start_not_executable (env : Env) (plugins : Plugins)
    (path : String) (hexec : env.access_X_OK path = false) :
    ∃ out : ControlOutcome,
      json_plugin_control env plugins "start" (some path) = some out ∧
      out.result = CommandResult.command_fail ErrorCode.JSONRPC2_INVALID_PARAMS
        (path ++ " is not executable: " ++ env.strerror) ∧
      mentions (path ++ " is not executable: " ++ env.strerror)
        "is not executable" ∧
      out.plugins = plugins ∧
      out.getmanifests = [] ∧
      out.kills = [] := by
  have hctl : json_plugin_control env plugins "start" (some path) =
      some (if env.access_X_OK path then plugin_dynamic_start env plugins path
        else ⟨CommandResult.command_fail ErrorCode.JSONRPC2_INVALID_PARAMS
          (path ++ " is not executable: " ++ env.strerror),
          plugins, [], []⟩) := rfl
  rw [hctl, hexec]
  refine ⟨⟨CommandResult.command_fail ErrorCode.JSONRPC2_INVALID_PARAMS
      (path ++ " is not executable: " ++ env.strerror), plugins, [], []⟩,
    rfl, rfl, ?_, rfl, rfl, rfl⟩
  exact mentions_append_right _ env.strerror _
    (mentions_append_left path _ _ ⟨" ".data, ": ".data, by decide⟩)

/-- Witness for C6: starting a non-executable path. -/
theorem claim_start_not_executable_witness :
    sample_env_noexec.access_X_OK "/plugins/new" = false ∧
    (∃ out : ControlOutcome,
      json_plugin_control sample_env_noexec sample_registry "start"
          (some "/plugins/new") = some out ∧
      out.result = CommandResult.command_fail ErrorCode.JSONRPC2_INVALID_PARAMS
        ("/plugins/new" ++ " is not executable: " ++
          sample_env_noexec.strerror) ∧
      mentions ("/plugins/new" ++ " is not executable: " ++
          sample_env_noexec.strerror) "is not executable" ∧
      out.plugins = sample_registry ∧
      out.getmanifests = [] ∧
      out.kills = []) :=
  ⟨by decide,
   claim_start_not_executable sample_env_noexec sample_registry "/plugins/new"
     (by decide)⟩

/-- C7: a list request always succeeds synchronously; the reply is a single
`"plugins"` array holding, in registry insertion order, one `{name, active}`
object per registered plugin, with `name` the launch path/token and `active`
true exactly when the plugin's state is `INIT_COMPLETE`. -/
theorem claim_list_serializes_registry (plugins : Plugins) :
    ∃ entries : List JObj,
      plugin_dynamic_list_plugins plugins =
        CommandResult.command_success [("plugins", JTop.arr entries)] ∧
      entries.length = plugins.plugins.length ∧
      ∀ i : Nat,
        entries[i]? = (plugins.plugins[i]?).map (fun p =>
          [("name", JLeaf.s p.cmd),
           ("active", JLeaf.b (p.plugin_state == PluginState.INIT_COMPLETE))]) := by
  refine ⟨plugins.plugins.map plugin_json_entry, rfl, by simp, ?_⟩
  intro i
  rw [List.getElem?_map]
  cases plugins.plugins[i]? <;> rfl

/-- C8: a startdir request on an existing directory that registers nothing
new (empty cohort) resolves success synchronously with the registry
snapshot: no handshake is submitted and the request never becomes
pending. -/
theorem claim_startdir_empty_cohort (env : Env) (plugins : Plugins)
    (dir : String) (hdir : env.access_F_OK dir = true)
    (hadd : env.add_plugin_dir plugins dir = Except.ok plugins)
    (hnostart : ∀ p ∈ plugins.plugins,
      p.plugin_state ≠ PluginState.STARTING) :
    json_plugin_control env plugins "startdir" (some dir) =
      some ⟨plugin_dynamic_list_plugins plugins, plugins, [], []⟩ ∧
    (∃ r : JStream,
      plugin_dynamic_list_plugins plugins = CommandResult.command_success r) ∧
    plugin_dynamic_list_plugins plugins ≠
      CommandResult.command_still_pending := by
  have hany : plugins.plugins.any
      (fun p => p.plugin_state == PluginState.STARTING) = false := by
    rw [List.any_eq_false]
    intro p hp
    simp [hnostart p hp]
  have hctl : json_plugin_control env plugins "startdir" (some dir) =
      some (if env.access_F_OK dir then plugin_dynamic_startdir env plugins dir
        else ⟨CommandResult.command_fail ErrorCode.JSONRPC2_INVALID_PARAMS
          ("Could not open " ++ dir), plugins, [], []⟩) := rfl
  refine ⟨?_, ⟨_, rfl⟩, by simp [plugin_dynamic_list_plugins]⟩
  rw [hctl, hdir]
  simp only [if_true]
  unfold plugin_dynamic_startdir
  rw [hadd]
  simp [plugin_register_all_complete, hany, plugin_cmd_all_complete]

/-- Witness for C8: startdir over a directory adding nothing to a registry
with no pending handshakes. -/
theorem claim_startdir_empty_cohort_witness :
    sample_env.access_F_OK "/empty/dir" = true ∧
    sample_env.add_plugin_dir sample_registry "/empty/dir" =
      Except.ok sample_registry ∧
    (json_plugin_control sample_env sample_registry "startdir"
        (some "/empty/dir") =
      some ⟨plugin_dynamic_list_plugins sample_registry, sample_registry,
        [], []⟩ ∧
     (∃ r : JStream, plugin_dynamic_list_plugins sample_registry =
        CommandResult.command_success r) ∧
     plugin_dynamic_list_plugins sample_registry ≠
       CommandResult.command_still_pending) :=
  ⟨by decide, rfl,
   claim_startdir_empty_cohort sample_env sample_registry "/empty/dir"
     (by decide) rfl (by decide)⟩

lemma plugin_dynamic_start_kills (env : Env) (plugins : Plugins)
    (path : String) : (plugin_dynamic_start env plugins path).kills = [] := by
  unfold plugin_dynamic_start
  split
  · rfl
  · split <;> rfl

lemma plugin_dynamic_startdir_kills (env : Env) (plugins : Plugins)
    (dir : String) : (plugin_dynamic_startdir env plugins dir).kills = [] := by
  unfold plugin_dynamic_startdir
  split
  · rfl
  · split <;> rfl

lemma plugin_dynamic_rescan_kills (env : Env) (plugins : Plugins) :
    (plugin_dynamic_rescan_plugins env plugins).kills = [] := by
  unfold plugin_dynamic_rescan_plugins
  split <;> rfl

lemma plugin_dynamic_stop_kills (env : Env) (plugins : Plugins)
    (name : String) : (plugin_dynamic_stop env plugins name).kills =
      (stop_scan env.deprecated_apis name plugins.plugins).2 := rfl

/-- C9: through this control surface, kill is only ever invoked on records
whose dynamic flag is true: whichever subcommand and arguments are given,
every record in the outcome's kill list is dynamic. -/
theorem claim_kill_only_dynamic (env : Env) (plugins : Plugins)
    (subcmd : String) (arg : Option String) (out : ControlOutcome)
    (p : Plugin) (hout : json_plugin_control env plugins subcmd arg = some out)
    (hp : p ∈ out.kills) : p.dynamic = true := by
  unfold json_plugin_control at hout
  split at hout
  · rcases arg with _ | name
    · injection hout with hout
      have h2 : out =
          ⟨CommandResult.command_param_failed, plugins, [], []⟩ := hout.symm
      rw [h2] at hp
      simp at hp
    · injection hout with hout
      have h2 : out = plugin_dynamic_stop env plugins name := hout.symm
      rw [h2, plugin_dynamic_stop_kills] at hp
      exact stop_scan_kills_dynamic env.deprecated_apis name plugins.plugins
        p hp
  · split at hout
    · rcases arg with _ | path
      · injection hout with hout
        have h2 : out =
            ⟨CommandResult.command_param_failed, plugins, [], []⟩ := hout.symm
        rw [h2] at hp
        simp at hp
      · injection hout with hout
        have h2 : out = if env.access_X_OK path = true then
            plugin_dynamic_start env plugins path
          else ⟨CommandResult.command_fail ErrorCode.JSONRPC2_INVALID_PARAMS
            (path ++ " is not executable: " ++ env.strerror),
            plugins, [], []⟩ := hout.symm
        rcases hx : env.access_X_OK path with _ | _ <;> rw [hx] at h2 <;>
          simp at h2 <;> rw [h2] at hp
        · simp at hp
        · rw [plugin_dynamic_start_kills] at hp
          simp at hp
    · split at hout
      · rcases arg with _ | dir
        · injection hout with hout
          have h2 : out =
              ⟨CommandResult.command_param_failed, plugins, [], []⟩ :=
            hout.symm
          rw [h2] at hp
          simp at hp
        · injection hout with hout
          have h2 : out = if env.access_F_OK dir = true then
              plugin_dynamic_startdir env plugins dir
            else ⟨CommandResult.command_fail ErrorCode.JSONRPC2_INVALID_PARAMS
              ("Could not open " ++ dir), plugins, [], []⟩ := hout.symm
          rcases hf : env.access_F_OK dir with _ | _ <;> rw [hf] at h2 <;>
            simp at h2 <;> rw [h2] at hp
          · simp at hp
          · rw [plugin_dynamic_startdir_kills] at hp
            simp at hp
      · split at hout
        · injection hout with hout
          have h2 : out = plugin_dynamic_rescan_plugins env plugins :=
            hout.symm
          rw [h2, plugin_dynamic_rescan_kills] at hp
          simp at hp
        · split at hout
          · injection hout with hout
            have h2 : out =
                ⟨plugin_dynamic_list_plugins plugins, plugins, [], []⟩ :=
              hout.symm
            rw [h2] at hp
            simp at hp
          · simp at hout

/-- Witness for C9: a concrete stop that does kill a record; the theorem
yields that the record is dynamic. -/
theorem claim_kill_only_dynamic_witness :
    (json_plugin_control sample_env sample_registry "stop" (some "foo") =
      some (plugin_dynamic_stop sample_env sample_registry "foo")) ∧
    foo_plugin ∈ (plugin_dynamic_stop sample_env sample_registry "foo").kills ∧
    foo_plugin.dynamic = true :=
  ⟨by decide, by decide,
   claim_kill_only_dynamic sample_env sample_registry "stop" (some "foo")
     (plugin_dynamic_stop sample_env sample_registry "foo") foo_plugin
     (by decide) (by decide)⟩

/-- C10: every subcommand token accepted by `param_subcommand` is handled by
one of the five dispatch branches, so the trailing `abort()` (the `none`
outcome of the embedding) is unreachable. -/
theorem claim_dispatch_exhaustive (env : Env) (plugins : Plugins)
    (subcmd : String) (arg : Option String)
    (h : param_subcommand_ok subcmd = true) :
    (json_plugin_control env plugins subcmd arg).isSome = true := by
  have h5 : subcmd = "start" ∨ subcmd = "stop" ∨ subcmd = "startdir" ∨
      subcmd = "rescan" ∨ subcmd = "list" := by
    simpa [param_subcommand_ok, or_assoc] using h
  rcases h5 with rfl | rfl | rfl | rfl | rfl <;> rfl

/-- Witness for C10 on the `list` token. -/
theorem claim_dispatch_exhaustive_witness :
    param_subcommand_ok "list" = true ∧
    (json_plugin_control sample_env sample_registry "list" none).isSome =
      true :=
  ⟨by decide,
   claim_dispatch_exhaustive sample_env sample_registry "list" none
     (by decide)⟩
